import Mathlib

/-!
Shallow embedding of the replicate-mcp server (src/index.ts).

The server exposes one tool, "replicate_image_generate".  A tool call
validates its arguments with "isReplicateArgs", builds a defaulted request
body, issues a job-creation HTTP call, then polls the prediction status up
to MAX_ATTEMPTS times with a POLL_INTERVAL millisecond sleep after each
non-terminal poll, and wraps the outcome in a tool-result envelope.

The remote service is modelled by a "Script": the HTTP response to the
create call and a function from poll-attempt index to the HTTP response of
that status read.  Execution returns the result together with a trace of
observable events (create calls, poll calls, sleeps), so that claims about
which remote calls are made, how many, and in which order are statable.

JavaScript runtime values reaching the handler are modelled by an untyped
"Json" type; "none" for an object property lookup plays the role of
"undefined".  Numeric literals are rationals: the code never computes with
numbers, it only forwards them, so 0.1 is represented exactly as 1/10.
-/

namespace ReplicateMcp

/-- Untyped JSON-ish runtime value (the handler receives "unknown"). -/
inductive Json where
  | null
  | bool (b : Bool)
  | num (q : ℚ)
  | str (s : String)
  | arr (elems : List Json)
  | obj (fields : List (String × Json))

/-- Property lookup: "x.k" on an object; yields none ("undefined") otherwise. -/
def getProp (j : Json) (k : String) : Option Json :=
  match j with
  | .obj fields => fields.lookup k
  | _ => none

/-- JavaScript "typeof x === \"object\"": true for null, arrays and objects. -/
def jsTypeofObject : Json → Bool
  | .null => true
  | .arr _ => true
  | .obj _ => true
  | _ => false

/-- Is the value literally null. -/
def isNull : Json → Bool
  | .null => true
  | _ => false

/-- JavaScript truthiness of a value. -/
def jsTruthy : Json → Bool
  | .null => false
  | .bool b => b
  | .num q => !(q == 0)
  | .str s => !(s == "")
  | .arr _ => true
  | .obj _ => true

/-- Does "typeof v === \"string\"" hold for the result of a property lookup. -/
def isStringVal : Option Json → Bool
  | some (.str _) => true
  | _ => false

/-- Validation from src/index.ts lines 196-203: args is a non-null object
that has a "prompt" property whose value is a string. -/
def isReplicateArgs (args : Json) : Bool :=
  jsTypeofObject args && !isNull args &&
    (getProp args "prompt").isSome && isStringVal (getProp args "prompt")

/-- Nullish coalescing "v ?? d" on the result of a property lookup:
undefined (none) and null fall back to the default. -/
def nullishOr (v : Option Json) (d : Json) : Option Json :=
  match v with
  | none => some d
  | some .null => some d
  | some x => some x

/-- The "input" object of the job-creation request body
(src/index.ts lines 137-148).  A field that is none is absent
("undefined", dropped by JSON serialisation). -/
structure RequestInput where
  prompt : Option Json
  raw : Option Json
  seed : Option Json
  aspect_ratio : Option Json
  image_prompt : Option Json
  output_format : Option Json
  safety_tolerance : Option Json
  image_prompt_strength : Option Json

/-- Build the defaulted request body from the (validated) arguments,
mirroring the object literal at src/index.ts lines 137-148. -/
def buildRequestBody (params : Json) : RequestInput :=
  { prompt := getProp params "prompt"
    raw := nullishOr (getProp params "raw") (Json.bool false)
    seed := getProp params "seed"
    aspect_ratio := nullishOr (getProp params "aspect_ratio") (Json.str "1:1")
    image_prompt := getProp params "image_prompt"
    output_format := nullishOr (getProp params "output_format") (Json.str "jpg")
    safety_tolerance := nullishOr (getProp params "safety_tolerance") (Json.num 2)
    image_prompt_strength :=
      nullishOr (getProp params "image_prompt_strength") (Json.num (1/10)) }

/-- The parsed JSON of a prediction record returned by the remote service. -/
structure ReplicateResponse where
  id : String
  status : String
  output : Option (List String)
  error : Option String
deriving DecidableEq

/-- An HTTP response as observed through fetch: the ok flag, status code and
text (used in error messages), the raw body text, and the parsed JSON
(consumed only on the ok path). -/
structure HttpResponse where
  ok : Bool
  statusCode : Nat
  statusText : String
  bodyText : String
  json : ReplicateResponse
deriving DecidableEq

/-- Message of the exception thrown on a non-ok HTTP response
(src/index.ts lines 130 and 164). -/
def httpErrorMessage (r : HttpResponse) : String :=
  "Replicate API error: " ++ toString r.statusCode ++ " " ++ r.statusText
    ++ "\n" ++ r.bodyText

/-- Truthiness of the optional error field: "if (status.error)".
An absent field and the empty string are both falsy. -/
def truthyError (o : Option String) : Bool :=
  !(o.getD "" == "")

/-- Observable events of one tool invocation. -/
inductive Event where
  | createCall (body : RequestInput)
  | pollCall (id : String)
  | sleepMs (ms : Nat)

/-- The scripted behaviour of the remote service during one invocation:
the response to the create call, and the response to the i-th status read. -/
structure Script where
  createResp : HttpResponse
  polls : Nat → HttpResponse

/-- src/index.ts line 170. -/
def MAX_ATTEMPTS : Nat := 60

/-- src/index.ts line 171 (milliseconds). -/
def POLL_INTERVAL : Nat := 2000

/-- getPredictionStatus (src/index.ts lines 118-134): a non-ok response
throws the transport error, otherwise the parsed JSON is returned. -/
def getPredictionStatus (r : HttpResponse) : Except String ReplicateResponse :=
  if r.ok then Except.ok r.json else Except.error (httpErrorMessage r)

/-- The poll loop of generateImage (src/index.ts lines 174-193), with the
remaining attempt budget as fuel and the current attempt index.  Checks run
in source order: transport error, then the error field, then succeeded with
non-empty output, then failed; otherwise sleep and poll again.  Exhausted
fuel is the timeout throw at line 193. -/
def pollLoop (polls : Nat → HttpResponse) (id : String) :
    Nat → Nat → Except String String × List Event
  | 0, _ => (Except.error "Timeout waiting for image generation", [])
  | fuel+1, attempt =>
    match getPredictionStatus (polls attempt) with
    | Except.error msg => (Except.error msg, [Event.pollCall id])
    | Except.ok s =>
      if truthyError s.error then
        (Except.error ("Replicate API error: " ++ s.error.getD ""),
          [Event.pollCall id])
      else if s.status == "succeeded" && !(s.output.getD []).isEmpty then
        (Except.ok ((s.output.getD []).headD ""), [Event.pollCall id])
      else if s.status == "failed" then
        (Except.error "Image generation failed", [Event.pollCall id])
      else
        let rest := pollLoop polls id fuel (attempt+1)
        (rest.1, Event.pollCall id :: Event.sleepMs POLL_INTERVAL :: rest.2)

/-- generateImage (src/index.ts lines 136-194): build the defaulted body,
issue the create call (throwing on a non-ok response), then run the poll
loop on the returned prediction id. -/
def generateImage (sc : Script) (params : Json) :
    Except String String × List Event :=
  let body := buildRequestBody params
  if sc.createResp.ok then
    let prediction := sc.createResp.json
    let rest := pollLoop sc.polls prediction.id MAX_ATTEMPTS 0
    (rest.1, Event.createCall body :: rest.2)
  else
    (Except.error (httpErrorMessage sc.createResp), [Event.createCall body])

/-- One content block of a tool result. -/
structure ToolContent where
  type : String
  text : String

/-- The tool-result envelope. -/
structure ToolResult where
  content : List ToolContent
  isError : Bool

/-- The catch block at src/index.ts lines 232-242: an error message is
wrapped as an isError result with an "Error: " text. -/
def errorResult (msg : String) : ToolResult :=
  { content := [⟨"text", "Error: " ++ msg⟩], isError := true }

/-- Falsiness of the arguments value: "if (!args)" where absent arguments
are "undefined". -/
def jsFalsyArgs : Option Json → Bool
  | none => true
  | some v => !jsTruthy v

/-- The CallToolRequestSchema handler (src/index.ts lines 209-243): reject
falsy arguments, dispatch on the tool name, validate, run generateImage,
and wrap outcome or thrown error.  Thrown errors are modelled by the
Except value; the only catch is this boundary. -/
def handleCallTool (sc : Script) (name : String) (args : Option Json) :
    ToolResult × List Event :=
  if jsFalsyArgs args then
    (errorResult "No arguments provided", [])
  else if name == "replicate_image_generate" then
    let a := args.getD Json.null
    if isReplicateArgs a then
      let r := generateImage sc a
      match r.1 with
      | Except.ok imageUrl =>
        ({ content := [⟨"text", "Generated image URL: " ++ imageUrl⟩],
           isError := false }, r.2)
      | Except.error msg => (errorResult msg, r.2)
    else
      (errorResult "Invalid arguments for replicate_image_generate", [])
  else
    ({ content := [⟨"text", "Unknown tool: " ++ name⟩], isError := true }, [])

/-- Number of poll calls in a trace. -/
def pollCount (evs : List Event) : Nat :=
  (evs.filter fun e => match e with | Event.pollCall _ => true | _ => false).length

/-- Number of sleeps in a trace. -/
def sleepCount (evs : List Event) : Nat :=
  (evs.filter fun e => match e with | Event.sleepMs _ => true | _ => false).length

/-- A poll response on which the loop neither throws nor returns: the code
falls through to the sleep at line 189 and polls again. -/
def isInProgress (r : HttpResponse) : Bool :=
  r.ok && !truthyError r.json.error &&
    !(r.json.status == "succeeded" && !(r.json.output.getD []).isEmpty) &&
    !(r.json.status == "failed")

/-- The trace left by n consecutive in-progress polls. -/
def timeoutTrace (id : String) : Nat → List Event
  | 0 => []
  | n+1 => Event.pollCall id :: Event.sleepMs POLL_INTERVAL :: timeoutTrace id n

/-- A poll response that reports success but carries no output yet
(and no error): the loop treats it exactly like an in-progress one. -/
def emptySucceeded (r : HttpResponse) : Bool :=
  r.ok && !truthyError r.json.error &&
    (r.json.status == "succeeded") && (r.json.output.getD []).isEmpty

/-! Concrete fixtures used by witnesses and counterexamples. -/

/-- A successful create response whose prediction id is "pred1". -/
def okCreate : HttpResponse :=
  { ok := true, statusCode := 201, statusText := "Created", bodyText := ""
    json := { id := "pred1", status := "starting", output := none, error := none } }

/-- An in-progress poll response. -/
def processingResp : HttpResponse :=
  { ok := true, statusCode := 200, statusText := "OK", bodyText := ""
    json := { id := "pred1", status := "processing", output := none, error := none } }

/-- A succeeded poll response carrying one output URI. -/
def succeededResp : HttpResponse :=
  { ok := true, statusCode := 200, statusText := "OK", bodyText := ""
    json := { id := "pred1", status := "succeeded"
              output := some ["https://x/img.jpg"], error := none } }

/-- A failed poll response with no error text. -/
def failedResp : HttpResponse :=
  { ok := true, statusCode := 200, statusText := "OK", bodyText := ""
    json := { id := "pred1", status := "failed", output := none, error := none } }

/-- A failed poll response that also carries a non-empty error string. -/
def failedWithError : HttpResponse :=
  { ok := true, statusCode := 200, statusText := "OK", bodyText := ""
    json := { id := "pred1", status := "failed", output := none
              error := some "boom" } }

/-- Arguments holding only a prompt. -/
def promptArgs : Json := Json.obj [("prompt", Json.str "p")]

/-- A script whose polls always report "processing". -/
def processingScript : Script :=
  { createResp := okCreate, polls := fun _ => processingResp }

/-- A script with three "processing" polls followed by success. -/
def threeThenSuccessScript : Script :=
  { createResp := okCreate
    polls := fun i => if i < 3 then processingResp else succeededResp }

/-! Helper lemmas about traces. -/

@[simp] theorem pollCount_nil : pollCount [] = 0 := rfl

@[simp] theorem pollCount_cons_poll (id : String) (evs : List Event) :
    pollCount (Event.pollCall id :: evs) = pollCount evs + 1 := by
  simp [pollCount, List.filter_cons]

@[simp] theorem pollCount_cons_sleep (n : Nat) (evs : List Event) :
    pollCount (Event.sleepMs n :: evs) = pollCount evs := by
  simp [pollCount, List.filter_cons]

@[simp] theorem pollCount_cons_create (b : RequestInput) (evs : List Event) :
    pollCount (Event.createCall b :: evs) = pollCount evs := by
  simp [pollCount, List.filter_cons]

@[simp] theorem sleepCount_nil : sleepCount [] = 0 := rfl

@[simp] theorem sleepCount_cons_poll (id : String) (evs : List Event) :
    sleepCount (Event.pollCall id :: evs) = sleepCount evs := by
  simp [sleepCount, List.filter_cons]

@[simp] theorem sleepCount_cons_sleep (n : Nat) (evs : List Event) :
    sleepCount (Event.sleepMs n :: evs) = sleepCount evs + 1 := by
  simp [sleepCount, List.filter_cons]

@[simp] theorem sleepCount_cons_create (b : RequestInput) (evs : List Event) :
    sleepCount (Event.createCall b :: evs) = sleepCount evs := by
  simp [sleepCount, List.filter_cons]

@[simp] theorem pollCount_timeoutTrace (id : String) (n : Nat) :
    pollCount (timeoutTrace id n) = n := by
  induction n with
  | zero => simp [timeoutTrace]
  | succ k ih => simp [timeoutTrace, ih]

@[simp] theorem sleepCount_timeoutTrace (id : String) (n : Nat) :
    sleepCount (timeoutTrace id n) = n := by
  induction n with
  | zero => simp [timeoutTrace]
  | succ k ih => simp [timeoutTrace, ih]

/-! Helper lemmas about the poll loop: one lemma per branch of the body. -/

theorem pollLoop_notOk (polls : Nat → HttpResponse) (id : String)
    (fuel attempt : Nat) (h : (polls attempt).ok = false) :
    pollLoop polls id (fuel+1) attempt =
      (Except.error (httpErrorMessage (polls attempt)), [Event.pollCall id]) := by
  simp [pollLoop, getPredictionStatus, h]

theorem pollLoop_errorField (polls : Nat → HttpResponse) (id : String)
    (fuel attempt : Nat) (hok : (polls attempt).ok = true)
    (herr : truthyError (polls attempt).json.error = true) :
    pollLoop polls id (fuel+1) attempt =
      (Except.error ("Replicate API error: " ++ (polls attempt).json.error.getD ""),
        [Event.pollCall id]) := by
  simp [pollLoop, getPredictionStatus, hok, herr]

theorem pollLoop_succeededOutput (polls : Nat → HttpResponse) (id : String)
    (fuel attempt : Nat) (u : String) (rest : List String)
    (hok : (polls attempt).ok = true)
    (herr : truthyError (polls attempt).json.error = false)
    (hst : (polls attempt).json.status = "succeeded")
    (hout : (polls attempt).json.output = some (u :: rest)) :
    pollLoop polls id (fuel+1) attempt = (Except.ok u, [Event.pollCall id]) := by
  simp [pollLoop, getPredictionStatus, hok, herr, hst, hout]

theorem pollLoop_failedStatus (polls : Nat → HttpResponse) (id : String)
    (fuel attempt : Nat) (hok : (polls attempt).ok = true)
    (herr : truthyError (polls attempt).json.error = false)
    (hst : (polls attempt).json.status = "failed") :
    pollLoop polls id (fuel+1) attempt =
      (Except.error "Image generation failed", [Event.pollCall id]) := by
  simp [pollLoop, getPredictionStatus, hok, herr, hst]

theorem pollLoop_inProgress (polls : Nat → HttpResponse) (id : String)
    (fuel attempt : Nat) (h : isInProgress (polls attempt) = true) :
    pollLoop polls id (fuel+1) attempt =
      ((pollLoop polls id fuel (attempt+1)).1,
        Event.pollCall id :: Event.sleepMs POLL_INTERVAL ::
          (pollLoop polls id fuel (attempt+1)).2) := by
  simp only [isInProgress, Bool.and_eq_true, Bool.not_eq_true'] at h
  obtain ⟨⟨⟨hok, herr⟩, hsucc⟩, hfail⟩ := h
  simp [pollLoop, getPredictionStatus, hok, herr, hsucc, hfail]

theorem pollLoop_timeout (polls : Nat → HttpResponse) (id : String) :
    ∀ fuel attempt, (∀ i, i < fuel → isInProgress (polls (attempt + i)) = true) →
    pollLoop polls id fuel attempt =
      (Except.error "Timeout waiting for image generation", timeoutTrace id fuel) := by
  intro fuel
  induction fuel with
  | zero => intro attempt _; simp [pollLoop, timeoutTrace]
  | succ n ih =>
    intro attempt h
    have h0 : isInProgress (polls attempt) = true := by
      have := h 0 (Nat.succ_pos n)
      simpa using this
    have hrest := ih (attempt+1) (fun i hi => by
      have hx := h (i+1) (Nat.succ_lt_succ hi)
      rwa [show attempt + (i+1) = attempt + 1 + i by omega] at hx)
    rw [pollLoop_inProgress polls id n attempt h0, hrest]
    simp [timeoutTrace]

theorem pollCount_pollLoop_le (polls : Nat → HttpResponse) (id : String) :
    ∀ fuel attempt, pollCount (pollLoop polls id fuel attempt).2 ≤ fuel := by
  intro fuel
  induction fuel with
  | zero => intro attempt; simp [pollLoop]
  | succ n ih =>
    intro attempt
    cases hok : (polls attempt).ok with
    | false =>
      rw [pollLoop_notOk polls id n attempt hok]
      simp
    | true =>
      cases herr : truthyError (polls attempt).json.error with
      | true =>
        rw [pollLoop_errorField polls id n attempt hok herr]
        simp
      | false =>
        cases hsucc : ((polls attempt).json.status == "succeeded"
            && !((polls attempt).json.output.getD []).isEmpty) with
        | true => simp [pollLoop, getPredictionStatus, hok, herr, hsucc]
        | false =>
          cases hfail : ((polls attempt).json.status == "failed") with
          | true => simp [pollLoop, getPredictionStatus, hok, herr, hsucc, hfail]
          | false =>
            have hip : isInProgress (polls attempt) = true := by
              simp [isInProgress, hok, herr, hsucc, hfail]
            rw [pollLoop_inProgress polls id n attempt hip]
            simpa using Nat.succ_le_succ (ih (attempt+1))

/-! Helper lemmas about generateImage and the handler. -/

theorem generateImage_createOk (sc : Script) (p : Json)
    (h : sc.createResp.ok = true) :
    generateImage sc p =
      ((pollLoop sc.polls sc.createResp.json.id MAX_ATTEMPTS 0).1,
        Event.createCall (buildRequestBody p) ::
          (pollLoop sc.polls sc.createResp.json.id MAX_ATTEMPTS 0).2) := by
  simp [generateImage, h]

theorem generateImage_createFail (sc : Script) (p : Json)
    (h : sc.createResp.ok = false) :
    generateImage sc p =
      (Except.error (httpErrorMessage sc.createResp),
        [Event.createCall (buildRequestBody p)]) := by
  simp [generateImage, h]

theorem valid_args_not_falsy (a : Json) (h : isReplicateArgs a = true) :
    jsFalsyArgs (some a) = false := by
  cases a <;> simp_all [isReplicateArgs, jsTypeofObject, isNull, jsFalsyArgs, jsTruthy]

theorem handleCallTool_valid_ok (sc : Script) (a : Json) (u : String)
    (h : isReplicateArgs a = true) (hr : (generateImage sc a).1 = Except.ok u) :
    handleCallTool sc "replicate_image_generate" (some a) =
      ({ content := [⟨"text", "Generated image URL: " ++ u⟩], isError := false },
        (generateImage sc a).2) := by
  have hf := valid_args_not_falsy a h
  simp [handleCallTool, hf, h, hr]

theorem handleCallTool_valid_error (sc : Script) (a : Json) (msg : String)
    (h : isReplicateArgs a = true) (hr : (generateImage sc a).1 = Except.error msg) :
    handleCallTool sc "replicate_image_generate" (some a) =
      (errorResult msg, (generateImage sc a).2) := by
  have hf := valid_args_not_falsy a h
  simp [handleCallTool, hf, h, hr]

theorem handleCallTool_valid_trace (sc : Script) (a : Json)
    (h : isReplicateArgs a = true) :
    (handleCallTool sc "replicate_image_generate" (some a)).2 =
      (generateImage sc a).2 := by
  cases hr : (generateImage sc a).1 with
  | ok u => rw [handleCallTool_valid_ok sc a u h hr]
  | error msg => rw [handleCallTool_valid_error sc a msg h hr]

theorem handleCallTool_falsy (sc : Script) (name : String) (args : Option Json)
    (h : jsFalsyArgs args = true) :
    handleCallTool sc name args = (errorResult "No arguments provided", []) := by
  simp [handleCallTool, h]

theorem handleCallTool_unknown (sc : Script) (name : String) (args : Option Json)
    (hf : jsFalsyArgs args = false)
    (hn : (name == "replicate_image_generate") = false) :
    handleCallTool sc name args =
      ({ content := [⟨"text", "Unknown tool: " ++ name⟩], isError := true }, []) := by
  simp [handleCallTool, hf, hn]

theorem handleCallTool_invalidArgs (sc : Script) (args : Option Json)
    (hf : jsFalsyArgs args = false)
    (ha : isReplicateArgs (args.getD Json.null) = false) :
    handleCallTool sc "replicate_image_generate" args =
      (errorResult "Invalid arguments for replicate_image_generate", []) := by
  simp [handleCallTool, hf, ha]

theorem pollCount_generateImage_le (sc : Script) (p : Json) :
    pollCount (generateImage sc p).2 ≤ MAX_ATTEMPTS := by
  cases hc : sc.createResp.ok with
  | true =>
    rw [generateImage_createOk sc p hc]
    simpa using pollCount_pollLoop_le sc.polls sc.createResp.json.id MAX_ATTEMPTS 0
  | false =>
    rw [generateImage_createFail sc p hc]
    simp [MAX_ATTEMPTS]

theorem MAX_ATTEMPTS_eq : MAX_ATTEMPTS = 59 + 1 := rfl

theorem nullishOr_some_of_ne_null (v d : Json) (h : v ≠ Json.null) :
    nullishOr (some v) d = some v := by
  cases v <;> simp_all [nullishOr]

/-! More concrete fixtures. -/

/-- A script that always polls the plain "failed" response. -/
def failedScript : Script := { createResp := okCreate, polls := fun _ => failedResp }

/-- A script that always polls the "failed" response with an error string. -/
def failedWithErrorScript : Script :=
  { createResp := okCreate, polls := fun _ => failedWithError }

/-- A succeeded poll response with two output URIs. -/
def twoOutputResp : HttpResponse :=
  { ok := true, statusCode := 200, statusText := "OK", bodyText := ""
    json := { id := "pred1", status := "succeeded"
              output := some ["https://x/a.jpg", "https://x/b.jpg"], error := none } }

/-- A script whose first poll already succeeds with two outputs. -/
def twoOutputScript : Script := { createResp := okCreate, polls := fun _ => twoOutputResp }

/-- A poll response reporting success with an empty output list. -/
def emptySucceededResp : HttpResponse :=
  { ok := true, statusCode := 200, statusText := "OK", bodyText := ""
    json := { id := "pred1", status := "succeeded", output := some [], error := none } }

/-- A script that only ever reports empty-output success. -/
def emptySucceededScript : Script :=
  { createResp := okCreate, polls := fun _ => emptySucceededResp }

/-- A create call answered with HTTP 500. -/
def failedCreate : HttpResponse :=
  { ok := false, statusCode := 500, statusText := "Internal Server Error"
    bodyText := "oops"
    json := { id := "", status := "", output := none, error := none } }

/-- A script whose create call fails with HTTP 500. -/
def failedCreateScript : Script :=
  { createResp := failedCreate, polls := fun _ => processingResp }

/-! Claim theorems. -/

/-- Claim C1 counterexample: a poll response with status "failed" and the
non-empty error string "boom" makes the invocation fail with text
"Error: Replicate API error: boom", not "Image generation failed": the
error-field check at src/index.ts line 177 runs before the failed-status
check at line 185. -/
theorem c1_failed_with_error_counterexample :
    (handleCallTool failedWithErrorScript "replicate_image_generate"
        (some promptArgs)).1 =
      { content := [⟨"text", "Error: Replicate API error: boom"⟩], isError := true }
    ∧ "Error: Replicate API error: boom" ≠ "Error: Image generation failed" :=
  ⟨rfl, by decide⟩

/-- Claim C1 (amended): for a poll response with status "failed", the
invocation fails with "Image generation failed" when the error field is
absent or empty; when the error field is a non-empty string, that string
wins and the failure message is "Replicate API error: " followed by it. -/
theorem c1_failed_status_message (sc : Script) (args : Json)
    (hc : sc.createResp.ok = true) (ha : isReplicateArgs args = true)
    (hok : (sc.polls 0).ok = true)
    (hst : (sc.polls 0).json.status = "failed") :
    (handleCallTool sc "replicate_image_generate" (some args)).1 =
      errorResult (if truthyError (sc.polls 0).json.error
        then "Replicate API error: " ++ (sc.polls 0).json.error.getD ""
        else "Image generation failed") := by
  cases herr : truthyError (sc.polls 0).json.error with
  | true =>
    have hr : (generateImage sc args).1 =
        Except.error ("Replicate API error: " ++ (sc.polls 0).json.error.getD "") := by
      rw [generateImage_createOk sc args hc, MAX_ATTEMPTS_eq,
        pollLoop_errorField sc.polls sc.createResp.json.id 59 0 hok herr]
    rw [handleCallTool_valid_error sc args _ ha hr]
    simp [herr]
  | false =>
    have hr : (generateImage sc args).1 = Except.error "Image generation failed" := by
      rw [generateImage_createOk sc args hc, MAX_ATTEMPTS_eq,
        pollLoop_failedStatus sc.polls sc.createResp.json.id 59 0 hok herr hst]
    rw [handleCallTool_valid_error sc args _ ha hr]
    simp [herr]

/-- Claim C1 witness. -/
theorem c1_failed_status_message_witness :
    (handleCallTool failedScript "replicate_image_generate" (some promptArgs)).1 =
      errorResult "Image generation failed" := by
  have h := c1_failed_status_message failedScript promptArgs rfl rfl rfl rfl
  simpa [failedScript, failedResp, truthyError] using h

/-- Claim C2: for a poll response with status "succeeded" and a non-empty
output list, the runner returns the first URI, discarding the remaining
ones, and the handler wraps it with isError false and the text
"Generated image URL: " followed by that URI.  The hypothesis that the
error field is absent or empty reflects the data model, in which error is
populated only on failure; a succeeded response carrying a non-empty error
would be intercepted by the earlier error check.  First conjunct: the loop
step at any attempt; second conjunct: a full invocation whose first poll is
such a response. -/
theorem c2_succeeded_returns_first_output :
    (∀ (polls : Nat → HttpResponse) (id : String) (fuel attempt : Nat)
        (u : String) (rest : List String),
      (polls attempt).ok = true →
      truthyError (polls attempt).json.error = false →
      (polls attempt).json.status = "succeeded" →
      (polls attempt).json.output = some (u :: rest) →
      (pollLoop polls id (fuel+1) attempt).1 = Except.ok u)
    ∧ (∀ (sc : Script) (args : Json) (u : String) (rest : List String),
      sc.createResp.ok = true → isReplicateArgs args = true →
      (sc.polls 0).ok = true →
      truthyError (sc.polls 0).json.error = false →
      (sc.polls 0).json.status = "succeeded" →
      (sc.polls 0).json.output = some (u :: rest) →
      (handleCallTool sc "replicate_image_generate" (some args)).1 =
        { content := [⟨"text", "Generated image URL: " ++ u⟩],
          isError := false }) := by
  constructor
  · intro polls id fuel attempt u rest hok herr hst hout
    rw [pollLoop_succeededOutput polls id fuel attempt u rest hok herr hst hout]
  · intro sc args u rest hc ha hok herr hst hout
    have hr : (generateImage sc args).1 = Except.ok u := by
      rw [generateImage_createOk sc args hc, MAX_ATTEMPTS_eq,
        pollLoop_succeededOutput sc.polls sc.createResp.json.id 59 0 u rest
          hok herr hst hout]
    rw [handleCallTool_valid_ok sc args u ha hr]

/-- Claim C2 witness: with two outputs the first one is returned. -/
theorem c2_succeeded_returns_first_output_witness :
    (handleCallTool twoOutputScript "replicate_image_generate"
        (some promptArgs)).1 =
      { content := [⟨"text", "Generated image URL: https://x/a.jpg"⟩],
        isError := false } :=
  c2_succeeded_returns_first_output.2 twoOutputScript promptArgs
    "https://x/a.jpg" ["https://x/b.jpg"] rfl rfl rfl rfl rfl rfl

/-- Claim C3: every invocation makes at most 60 poll calls (first
conjunct); when the first 60 poll responses are all in-progress, the
invocation fails with the timeout message and the trace is the create call
followed by exactly 60 poll calls, each followed by one 2000 ms sleep, so
no 61st poll call occurs (second conjunct). -/
theorem c3_poll_bound_and_timeout :
    (∀ (sc : Script) (name : String) (args : Option Json),
      pollCount (handleCallTool sc name args).2 ≤ MAX_ATTEMPTS)
    ∧ (∀ (sc : Script) (args : Json),
      sc.createResp.ok = true → isReplicateArgs args = true →
      (∀ i, i < MAX_ATTEMPTS → isInProgress (sc.polls i) = true) →
      (handleCallTool sc "replicate_image_generate" (some args)).1 =
          errorResult "Timeout waiting for image generation"
        ∧ (handleCallTool sc "replicate_image_generate" (some args)).2 =
            Event.createCall (buildRequestBody args) ::
              timeoutTrace sc.createResp.json.id MAX_ATTEMPTS
        ∧ pollCount (handleCallTool sc "replicate_image_generate" (some args)).2 =
            MAX_ATTEMPTS) := by
  constructor
  · intro sc name args
    cases hf : jsFalsyArgs args with
    | true => rw [handleCallTool_falsy sc name args hf]; simp
    | false =>
      cases hn : (name == "replicate_image_generate") with
      | false => rw [handleCallTool_unknown sc name args hf hn]; simp
      | true =>
        have hname : name = "replicate_image_generate" := eq_of_beq hn
        subst hname
        cases args with
        | none => simp [jsFalsyArgs] at hf
        | some a =>
          cases ha : isReplicateArgs a with
          | false =>
            rw [handleCallTool_invalidArgs sc (some a) hf ha]
            simp
          | true =>
            rw [handleCallTool_valid_trace sc a ha]
            exact pollCount_generateImage_le sc a
  · intro sc args hc ha hall
    have hp := pollLoop_timeout sc.polls sc.createResp.json.id MAX_ATTEMPTS 0
      (fun i hi => by simpa using hall i hi)
    have hr1 : (generateImage sc args).1 =
        Except.error "Timeout waiting for image generation" := by
      rw [generateImage_createOk sc args hc, hp]
    have hr2 : (generateImage sc args).2 =
        Event.createCall (buildRequestBody args) ::
          timeoutTrace sc.createResp.json.id MAX_ATTEMPTS := by
      rw [generateImage_createOk sc args hc, hp]
    refine ⟨?_, ?_, ?_⟩
    · rw [handleCallTool_valid_error sc args _ ha hr1]
    · rw [handleCallTool_valid_trace sc args ha, hr2]
    · rw [handleCallTool_valid_trace sc args ha, hr2]
      simp

/-- Claim C3 witness: 60 "processing" polls end in the timeout error after
exactly 60 poll calls. -/
theorem c3_poll_bound_and_timeout_witness :
    (handleCallTool processingScript "replicate_image_generate"
        (some promptArgs)).1 = errorResult "Timeout waiting for image generation"
    ∧ pollCount (handleCallTool processingScript "replicate_image_generate"
        (some promptArgs)).2 = MAX_ATTEMPTS :=
  ⟨(c3_poll_bound_and_timeout.2 processingScript promptArgs rfl rfl
      (fun _ _ => rfl)).1,
   (c3_poll_bound_and_timeout.2 processingScript promptArgs rfl rfl
      (fun _ _ => rfl)).2.2⟩

/-- Claim C4: an arguments object that lacks the "prompt" property or whose
"prompt" value is not a string is rejected locally: the result is the
isError "Invalid arguments" message (whose text contains the substring
"Invalid arguments") and the trace is empty, so neither the create nor the
poll endpoint is called. -/
theorem c4_invalid_args_rejected (sc : Script) (fields : List (String × Json))
    (h : getProp (Json.obj fields) "prompt" = none ∨
      ∀ s, getProp (Json.obj fields) "prompt" ≠ some (Json.str s)) :
    (handleCallTool sc "replicate_image_generate" (some (Json.obj fields))).1 =
        errorResult "Invalid arguments for replicate_image_generate"
      ∧ (handleCallTool sc "replicate_image_generate" (some (Json.obj fields))).2 = []
      ∧ ∃ pre post, "Error: Invalid arguments for replicate_image_generate" =
          pre ++ "Invalid arguments" ++ post := by
  have ha : isReplicateArgs (Json.obj fields) = false := by
    rcases h with h | h
    · simp [isReplicateArgs, h]
    · cases hv : getProp (Json.obj fields) "prompt" with
      | none => simp [isReplicateArgs, hv]
      | some v =>
        cases v with
        | str s => exact absurd hv (h s)
        | null => simp [isReplicateArgs, hv, isStringVal]
        | bool b => simp [isReplicateArgs, hv, isStringVal]
        | num q => simp [isReplicateArgs, hv, isStringVal]
        | arr es => simp [isReplicateArgs, hv, isStringVal]
        | obj fs => simp [isReplicateArgs, hv, isStringVal]
  have hh := handleCallTool_invalidArgs sc (some (Json.obj fields)) rfl ha
  exact ⟨by rw [hh], by rw [hh], "Error: ", " for replicate_image_generate", rfl⟩

/-- Claim C4 witness. -/
theorem c4_invalid_args_rejected_witness :
    (handleCallTool processingScript "replicate_image_generate"
        (some (Json.obj [("foo", Json.str "x")]))).1 =
      errorResult "Invalid arguments for replicate_image_generate"
    ∧ (handleCallTool processingScript "replicate_image_generate"
        (some (Json.obj [("foo", Json.str "x")]))).2 = [] :=
  ⟨(c4_invalid_args_rejected processingScript [("foo", Json.str "x")]
      (Or.inl rfl)).1,
   (c4_invalid_args_rejected processingScript [("foo", Json.str "x")]
      (Or.inl rfl)).2.1⟩

/-- Claim C5: the create call always carries the body built by
buildRequestBody (first conjunct); prompt, seed and image_prompt are
forwarded exactly as looked up (no defaults); each omitted optional field
receives its documented default (raw false, aspect_ratio "1:1",
output_format "jpg", safety_tolerance 2, image_prompt_strength 0.1); and
every supplied non-null value, of whatever shape, is forwarded unchanged —
no local validation. -/
theorem c5_request_body_defaults (sc : Script) (params : Json) :
    ((generateImage sc params).2.head? =
        some (Event.createCall (buildRequestBody params)))
    ∧ ((buildRequestBody params).prompt = getProp params "prompt")
    ∧ (getProp params "raw" = none →
        (buildRequestBody params).raw = some (Json.bool false))
    ∧ (getProp params "aspect_ratio" = none →
        (buildRequestBody params).aspect_ratio = some (Json.str "1:1"))
    ∧ (getProp params "output_format" = none →
        (buildRequestBody params).output_format = some (Json.str "jpg"))
    ∧ (getProp params "safety_tolerance" = none →
        (buildRequestBody params).safety_tolerance = some (Json.num 2))
    ∧ (getProp params "image_prompt_strength" = none →
        (buildRequestBody params).image_prompt_strength = some (Json.num (1/10)))
    ∧ ((buildRequestBody params).seed = getProp params "seed")
    ∧ ((buildRequestBody params).image_prompt = getProp params "image_prompt")
    ∧ (∀ v, v ≠ Json.null → getProp params "raw" = some v →
        (buildRequestBody params).raw = some v)
    ∧ (∀ v, v ≠ Json.null → getProp params "aspect_ratio" = some v →
        (buildRequestBody params).aspect_ratio = some v)
    ∧ (∀ v, v ≠ Json.null → getProp params "output_format" = some v →
        (buildRequestBody params).output_format = some v)
    ∧ (∀ v, v ≠ Json.null → getProp params "safety_tolerance" = some v →
        (buildRequestBody params).safety_tolerance = some v)
    ∧ (∀ v, v ≠ Json.null → getProp params "image_prompt_strength" = some v →
        (buildRequestBody params).image_prompt_strength = some v) := by
  refine ⟨?_, rfl, ?_, ?_, ?_, ?_, ?_, rfl, rfl, ?_, ?_, ?_, ?_, ?_⟩
  · cases hc : sc.createResp.ok with
    | true => rw [generateImage_createOk sc params hc]; rfl
    | false => rw [generateImage_createFail sc params hc]; rfl
  · intro h; simp [buildRequestBody, h, nullishOr]
  · intro h; simp [buildRequestBody, h, nullishOr]
  · intro h; simp [buildRequestBody, h, nullishOr]
  · intro h; simp [buildRequestBody, h, nullishOr]
  · intro h; simp [buildRequestBody, h, nullishOr]
  · intro v hv h; simp [buildRequestBody, h, nullishOr_some_of_ne_null v _ hv]
  · intro v hv h; simp [buildRequestBody, h, nullishOr_some_of_ne_null v _ hv]
  · intro v hv h; simp [buildRequestBody, h, nullishOr_some_of_ne_null v _ hv]
  · intro v hv h; simp [buildRequestBody, h, nullishOr_some_of_ne_null v _ hv]
  · intro v hv h; simp [buildRequestBody, h, nullishOr_some_of_ne_null v _ hv]

/-- Claim C5 witness: defaults for a prompt-only request, and an invalid
aspect-ratio string forwarded unchanged. -/
theorem c5_request_body_defaults_witness :
    (buildRequestBody promptArgs).raw = some (Json.bool false)
    ∧ (buildRequestBody promptArgs).aspect_ratio = some (Json.str "1:1")
    ∧ (buildRequestBody promptArgs).output_format = some (Json.str "jpg")
    ∧ (buildRequestBody promptArgs).safety_tolerance = some (Json.num 2)
    ∧ (buildRequestBody promptArgs).image_prompt_strength = some (Json.num (1/10))
    ∧ (buildRequestBody (Json.obj [("prompt", Json.str "p"),
        ("aspect_ratio", Json.str "bogus")])).aspect_ratio =
      some (Json.str "bogus") :=
  ⟨(c5_request_body_defaults processingScript promptArgs).2.2.1 rfl,
   (c5_request_body_defaults processingScript promptArgs).2.2.2.1 rfl,
   (c5_request_body_defaults processingScript promptArgs).2.2.2.2.1 rfl,
   (c5_request_body_defaults processingScript promptArgs).2.2.2.2.2.1 rfl,
   (c5_request_body_defaults processingScript promptArgs).2.2.2.2.2.2.1 rfl,
   (c5_request_body_defaults processingScript
      (Json.obj [("prompt", Json.str "p"), ("aspect_ratio", Json.str "bogus")])
      ).2.2.2.2.2.2.2.2.2.2.1 (Json.str "bogus")
      (fun hcon => Json.noConfusion hcon) rfl⟩

/-- Claim C6: a non-ok HTTP response aborts the invocation at once.  If the
create call fails, the result is the transport error and the trace holds
only the create call, so the poll endpoint is never reached (first
conjunct); if a status read fails, the loop stops at that single poll call
with the transport error and no retry (second conjunct); the thrown message
carries the status code and the response body text (third conjunct). -/
theorem c6_http_failure_aborts :
    (∀ (sc : Script) (args : Json), isReplicateArgs args = true →
      sc.createResp.ok = false →
      (handleCallTool sc "replicate_image_generate" (some args)).1 =
          errorResult (httpErrorMessage sc.createResp)
        ∧ (handleCallTool sc "replicate_image_generate" (some args)).2 =
            [Event.createCall (buildRequestBody args)]
        ∧ pollCount (handleCallTool sc "replicate_image_generate" (some args)).2 = 0)
    ∧ (∀ (polls : Nat → HttpResponse) (id : String) (fuel attempt : Nat),
      (polls attempt).ok = false →
      pollLoop polls id (fuel+1) attempt =
        (Except.error (httpErrorMessage (polls attempt)), [Event.pollCall id]))
    ∧ (∀ r : HttpResponse, httpErrorMessage r =
        "Replicate API error: " ++ toString r.statusCode ++ " " ++ r.statusText
          ++ "\n" ++ r.bodyText) := by
  refine ⟨?_, pollLoop_notOk, fun r => rfl⟩
  intro sc args ha hc
  have hr1 : (generateImage sc args).1 =
      Except.error (httpErrorMessage sc.createResp) := by
    rw [generateImage_createFail sc args hc]
  have hr2 : (generateImage sc args).2 =
      [Event.createCall (buildRequestBody args)] := by
    rw [generateImage_createFail sc args hc]
  refine ⟨?_, ?_, ?_⟩
  · rw [handleCallTool_valid_error sc args _ ha hr1]
  · rw [handleCallTool_valid_trace sc args ha, hr2]
  · rw [handleCallTool_valid_trace sc args ha, hr2]
    simp

/-- Claim C6 witness: a create call answered with HTTP 500. -/
theorem c6_http_failure_aborts_witness :
    (handleCallTool failedCreateScript "replicate_image_generate"
        (some promptArgs)).1 = errorResult (httpErrorMessage failedCreate)
    ∧ pollCount (handleCallTool failedCreateScript "replicate_image_generate"
        (some promptArgs)).2 = 0 :=
  ⟨(c6_http_failure_aborts.1 failedCreateScript promptArgs rfl rfl).1,
   (c6_http_failure_aborts.1 failedCreateScript promptArgs rfl rfl).2.2⟩

/-- Claim C7 counterexample: a request naming an unknown tool yields
isError true, but its text is "Unknown tool: other_tool", which is not of
the form "Error: <description>" (the unknown-tool branch at src/index.ts
line 228 returns directly instead of throwing into the catch block). -/
theorem c7_unknown_tool_counterexample :
    (handleCallTool processingScript "other_tool" (some promptArgs)).1 =
      { content := [⟨"text", "Unknown tool: other_tool"⟩], isError := true }
    ∧ List.isPrefixOf "Error: ".data "Unknown tool: other_tool".data = false :=
  ⟨rfl, by decide⟩

/-- Claim C7 (amended): every invocation returns a tool result holding
exactly one text block (no exception escapes the boundary); missing
arguments, invalid arguments and every error from the runner (transport,
generation, timeout) are converted into isError true results whose text is
"Error: " followed by the description; a request naming an unknown tool
yields isError true with text "Unknown tool: " followed by the name — not
the "Error: " form. -/
theorem c7_error_boundary :
    (∀ (sc : Script) (name : String) (args : Option Json),
      ∃ t, (handleCallTool sc name args).1.content = [⟨"text", t⟩])
    ∧ (∀ (sc : Script) (name : String),
      (handleCallTool sc name none).1 = errorResult "No arguments provided")
    ∧ (∀ (sc : Script) (args : Option Json),
      jsFalsyArgs args = false → isReplicateArgs (args.getD Json.null) = false →
      (handleCallTool sc "replicate_image_generate" args).1 =
        errorResult "Invalid arguments for replicate_image_generate")
    ∧ (∀ (sc : Script) (a : Json) (msg : String), isReplicateArgs a = true →
      (generateImage sc a).1 = Except.error msg →
      (handleCallTool sc "replicate_image_generate" (some a)).1 =
        errorResult msg)
    ∧ (∀ msg : String, (errorResult msg).isError = true ∧
        (errorResult msg).content = [⟨"text", "Error: " ++ msg⟩])
    ∧ (∀ (sc : Script) (name : String) (args : Option Json),
      jsFalsyArgs args = false → (name == "replicate_image_generate") = false →
      (handleCallTool sc name args).1 =
        { content := [⟨"text", "Unknown tool: " ++ name⟩], isError := true }) := by
  refine ⟨?_, ?_, ?_, ?_, fun msg => ⟨rfl, rfl⟩, ?_⟩
  · intro sc name args
    cases hf : jsFalsyArgs args with
    | true => rw [handleCallTool_falsy sc name args hf]; exact ⟨_, rfl⟩
    | false =>
      cases hn : (name == "replicate_image_generate") with
      | false => rw [handleCallTool_unknown sc name args hf hn]; exact ⟨_, rfl⟩
      | true =>
        have hname : name = "replicate_image_generate" := eq_of_beq hn
        subst hname
        cases args with
        | none => simp [jsFalsyArgs] at hf
        | some a =>
          cases ha : isReplicateArgs a with
          | false =>
            rw [handleCallTool_invalidArgs sc (some a) hf ha]
            exact ⟨_, rfl⟩
          | true =>
            cases hr : (generateImage sc a).1 with
            | ok u => rw [handleCallTool_valid_ok sc a u ha hr]; exact ⟨_, rfl⟩
            | error m => rw [handleCallTool_valid_error sc a m ha hr]; exact ⟨_, rfl⟩
  · intro sc name
    rw [handleCallTool_falsy sc name none rfl]
  · intro sc args hf ha
    rw [handleCallTool_invalidArgs sc args hf ha]
  · intro sc a msg ha hr
    rw [handleCallTool_valid_error sc a msg ha hr]
  · intro sc name args hf hn
    rw [handleCallTool_unknown sc name args hf hn]

/-- Claim C7 witness: the timeout error surfaces in "Error: " form. -/
theorem c7_error_boundary_witness :
    (handleCallTool processingScript "replicate_image_generate"
        (some promptArgs)).1 =
      errorResult "Timeout waiting for image generation" :=
  c7_error_boundary.2.2.2.1 processingScript promptArgs
    "Timeout waiting for image generation" rfl rfl

/-- The trace of the three-processing-then-success scenario. -/
def c8trace : List Event :=
  (handleCallTool threeThenSuccessScript "replicate_image_generate"
    (some promptArgs)).2

/-- Claim C8 counterexample: in the scripted scenario of three "processing"
polls followed by one success, the trace is the create call, then the first
poll immediately (no suspension before it), then sleep and poll alternating:
only 3 sleeps occur for the 4 poll calls, because the code sleeps after a
non-terminal poll (src/index.ts line 189), never before the first one.  So
not every poll call is preceded by a 2000 ms suspension. -/
theorem c8_first_poll_unsuspended_counterexample :
    c8trace =
      [Event.createCall (buildRequestBody promptArgs), Event.pollCall "pred1",
       Event.sleepMs 2000, Event.pollCall "pred1", Event.sleepMs 2000,
       Event.pollCall "pred1", Event.sleepMs 2000, Event.pollCall "pred1"]
    ∧ sleepCount c8trace = 3 ∧ pollCount c8trace = 4 :=
  ⟨rfl, rfl, rfl⟩

/-- Claim C8 (amended): for the poll sequence of three "processing"
responses followed by a "succeeded" response with output
["https://x/img.jpg"], the result is isError false with text
"Generated image URL: https://x/img.jpg" and exactly 4 poll calls are
made; the first poll happens immediately after the create call, and each
subsequent poll is preceded by exactly one 2000 ms suspension (3 sleeps in
total). -/
theorem c8_three_processing_then_success :
    (handleCallTool threeThenSuccessScript "replicate_image_generate"
        (some promptArgs)).1 =
      { content := [⟨"text", "Generated image URL: https://x/img.jpg"⟩],
        isError := false }
    ∧ pollCount c8trace = 4
    ∧ c8trace =
        [Event.createCall (buildRequestBody promptArgs), Event.pollCall "pred1",
         Event.sleepMs POLL_INTERVAL, Event.pollCall "pred1",
         Event.sleepMs POLL_INTERVAL, Event.pollCall "pred1",
         Event.sleepMs POLL_INTERVAL, Event.pollCall "pred1"] :=
  ⟨rfl, rfl, rfl⟩

/-- Claim C9: a poll response with status "succeeded" but an empty or
absent output list (and no error) is not terminal: the loop sleeps the
fixed interval and polls again (first conjunct), and a job that only ever
reports such responses ends in the timeout error, never in success (second
conjunct). -/
theorem c9_empty_output_success_not_terminal :
    (∀ (polls : Nat → HttpResponse) (id : String) (fuel attempt : Nat),
      emptySucceeded (polls attempt) = true →
      pollLoop polls id (fuel+1) attempt =
        ((pollLoop polls id fuel (attempt+1)).1,
          Event.pollCall id :: Event.sleepMs POLL_INTERVAL ::
            (pollLoop polls id fuel (attempt+1)).2))
    ∧ (∀ (sc : Script) (args : Json),
      sc.createResp.ok = true → isReplicateArgs args = true →
      (∀ i, i < MAX_ATTEMPTS → emptySucceeded (sc.polls i) = true) →
      (handleCallTool sc "replicate_image_generate" (some args)).1 =
        errorResult "Timeout waiting for image generation") := by
  have key : ∀ r : HttpResponse, emptySucceeded r = true → isInProgress r = true := by
    intro r h
    simp only [emptySucceeded, Bool.and_eq_true, Bool.not_eq_true'] at h
    obtain ⟨⟨⟨hok, herr⟩, hst⟩, hemp⟩ := h
    have hst' : r.json.status = "succeeded" := eq_of_beq hst
    simp [isInProgress, hok, herr, hemp, hst']
  constructor
  · intro polls id fuel attempt h
    exact pollLoop_inProgress polls id fuel attempt (key _ h)
  · intro sc args hc ha hall
    have hp := pollLoop_timeout sc.polls sc.createResp.json.id MAX_ATTEMPTS 0
      (fun i hi => by simpa using key _ (hall i hi))
    have hr : (generateImage sc args).1 =
        Except.error "Timeout waiting for image generation" := by
      rw [generateImage_createOk sc args hc, hp]
    rw [handleCallTool_valid_error sc args _ ha hr]

/-- Claim C9 witness. -/
theorem c9_empty_output_success_not_terminal_witness :
    (handleCallTool emptySucceededScript "replicate_image_generate"
        (some promptArgs)).1 =
      errorResult "Timeout waiting for image generation" :=
  c9_empty_output_success_not_terminal.2 emptySucceededScript promptArgs
    rfl rfl (fun _ _ => rfl)

/-- Claim C10: an arguments object whose "prompt" property is the empty
string passes local validation (the non-empty constraint of the declared
schema is not enforced), and the invocation issues the create call with a
body whose prompt is that empty string. -/
theorem c10_empty_prompt_accepted (sc : Script) (fields : List (String × Json))
    (h : getProp (Json.obj fields) "prompt" = some (Json.str "")) :
    isReplicateArgs (Json.obj fields) = true
    ∧ (buildRequestBody (Json.obj fields)).prompt = some (Json.str "")
    ∧ (handleCallTool sc "replicate_image_generate" (some (Json.obj fields))).2.head? =
        some (Event.createCall (buildRequestBody (Json.obj fields))) := by
  have ha : isReplicateArgs (Json.obj fields) = true := by
    simp [isReplicateArgs, h, jsTypeofObject, isNull, isStringVal]
  refine ⟨ha, by simp [buildRequestBody, h], ?_⟩
  rw [handleCallTool_valid_trace sc (Json.obj fields) ha]
  cases hc : sc.createResp.ok with
  | true => rw [generateImage_createOk sc (Json.obj fields) hc]; rfl
  | false => rw [generateImage_createFail sc (Json.obj fields) hc]; rfl

/-- Claim C10 witness. -/
theorem c10_empty_prompt_accepted_witness :
    isReplicateArgs (Json.obj [("prompt", Json.str "")]) = true
    ∧ (handleCallTool processingScript "replicate_image_generate"
        (some (Json.obj [("prompt", Json.str "")]))).2.head? =
      some (Event.createCall (buildRequestBody (Json.obj [("prompt", Json.str "")]))) :=
  ⟨(c10_empty_prompt_accepted processingScript [("prompt", Json.str "")] rfl).1,
   (c10_empty_prompt_accepted processingScript [("prompt", Json.str "")] rfl).2.2⟩

end ReplicateMcp
